import Mathlib

/-!
PPM2USB firmware: report builder, transport gate and setup callback.

A shallow embedding of `src/firmware/main.c`.

* `uchar` values are natural numbers; a value entering the program from
  outside (a PPM channel, a byte of a setup packet) is truncated with `% 256`.
* `reportBuffer` (`static uchar reportBuffer[8]`) is a list of bytes; a read
  is `rd`, a write is `wr`.
* The collaborators whose code is not part of `main.c` (`ppmGet`,
  `usbInterruptIsReady`, `usbSetInterrupt`, `usbPoll`, the request constants of
  `usbdrv.h`) are parameters of the definitions.
-/

namespace PPM2USB

/-! ## Memory -/

/-- Read of `buf[i]`. -/
def rd (buf : List Nat) (i : Nat) : Nat := buf.getD i 0

/-- Write `buf[i] = v`. -/
def wr (buf : List Nat) (i : Nat) (v : Nat) : List Nat := buf.set i v

/-- The value of `sizeof(reportBuffer)` for `static uchar reportBuffer[8]`. -/
def sizeofReportBuffer : Nat := 8

/-- The table `static uchar remapChannelLut[8] = {4,0,1,2,3,5,6,7}`. -/
def remapChannelLut : List Nat := [4, 0, 1, 2, 3, 5, 6, 7]

/-- The call `ppmGet(i)` assigned to an `unsigned char`: the PPM source is the
parameter `ppm`, its result is truncated to 8 bits. -/
def ppmGet (ppm : Nat → Nat) (i : Nat) : Nat := ppm i % 256

/-- A channel frame given by the list of its channel values. -/
def frameOf (l : List Nat) : Nat → Nat := fun i => l.getD i 0

/-! ## Report builder (main.c lines 138-173) -/

/-- Body of the channel scan `for (i=0;i<(sizeof(reportBuffer)-1);i++)` for one
value of `i`, acting on the pair (reportBuffer, changed). -/
def scanStep (ppm : Nat → Nat) (st : List Nat × Bool) (i : Nat) : List Nat × Bool :=
  let val := ppmGet ppm i
  if i < 5 then
    if rd st.1 (rd remapChannelLut i) ≠ val then
      (wr st.1 (rd remapChannelLut i) val, true)
    else st
  else
    if i = 5 then
      let b0 := wr st.1 4 0
      if val > 160 then (wr b0 4 0x8, st.2)
      else if val < 90 then (wr b0 4 0x4, st.2)
      else (b0, st.2)
    else if i = 6 then
      if val > 200 then (wr st.1 4 (rd st.1 4 ||| 0x2), st.2)
      else if val < 56 then (wr st.1 4 (rd st.1 4 ||| 0x1), st.2)
      else st
    else st

/-- The channel scan: `i` runs over `0 .. sizeof(reportBuffer)-2`. -/
def channelScan (ppm : Nat → Nat) (st : List Nat × Bool) : List Nat × Bool :=
  (List.range (sizeofReportBuffer - 1)).foldl (scanStep ppm) st

/-- One Report Builder pass: save `reportBuffer[4]`, scan the channels, then
set `changed` when `reportBuffer[4]` differs from the saved value. -/
def reportBuilderPass (ppm : Nat → Nat) (buf : List Nat) (changed : Bool) :
    List Nat × Bool :=
  let oldReportBufferVal := rd buf 4
  let st := channelScan ppm (buf, changed)
  if rd st.1 4 ≠ oldReportBufferVal then (st.1, true) else st

/-- Contribution of channel 5 to the button byte, following the spec's words. -/
def b5 (ch5 : Nat) : Nat := if ch5 > 160 then 0x08 else if ch5 < 90 then 0x04 else 0x00

/-- Contribution of channel 6 to the button byte, following the spec's words. -/
def b6 (ch6 : Nat) : Nat := if ch6 > 200 then 0x02 else if ch6 < 56 then 0x01 else 0x00

/-! ## Transport gate (main.c lines 174-183) -/

/-- One recorded call `usbSetInterrupt(data, len)`: the bytes the call hands to
the driver and the length argument. -/
structure UsbCall where
  data : List Nat
  len : Nat
  deriving DecidableEq, Repr

/-- The call `usbSetInterrupt((void *)&reportBuffer, len)`: the driver is handed
the first `len` bytes found at the pointer. -/
def usbSetInterrupt (buf : List Nat) (len : Nat) : UsbCall := ⟨buf.take len, len⟩

/-- The block `if (changed) { if(usbInterruptIsReady()){ changed=0; usbSetInterrupt(.., 5); } }`;
`ready` is the result of `usbInterruptIsReady()`. Returns the new `changed`
and the calls made. -/
def transportGate (buf : List Nat) (changed : Bool) (ready : Bool) : Bool × List UsbCall :=
  if changed then
    if ready then (false, [usbSetInterrupt buf 5])
    else (changed, [])
  else (changed, [])

/-! ## Setup callback (main.c lines 81-101) -/

/-- The request constants of `usbdrv.h` used by `usbFunctionSetup`. -/
structure UsbConsts where
  USBRQ_TYPE_MASK : Nat
  USBRQ_TYPE_CLASS : Nat
  USBRQ_HID_GET_REPORT : Nat
  USBRQ_HID_GET_IDLE : Nat
  USBRQ_HID_SET_IDLE : Nat

/-- The three opcodes handled by the callback are pairwise different. -/
def UsbConsts.Distinct (K : UsbConsts) : Prop :=
  K.USBRQ_HID_GET_REPORT ≠ K.USBRQ_HID_GET_IDLE ∧
  K.USBRQ_HID_GET_REPORT ≠ K.USBRQ_HID_SET_IDLE ∧
  K.USBRQ_HID_GET_IDLE ≠ K.USBRQ_HID_SET_IDLE

/-- The values the constants have in the V-USB driver and the HID class
specification. -/
def vusb : UsbConsts :=
  { USBRQ_TYPE_MASK := 0x60, USBRQ_TYPE_CLASS := 0x20,
    USBRQ_HID_GET_REPORT := 0x01, USBRQ_HID_GET_IDLE := 0x02, USBRQ_HID_SET_IDLE := 0x0a }

/-- The fields of `usbRequest_t` the callback reads. -/
structure usbRequest_t where
  bmRequestType : Nat
  bRequest : Nat
  wValueLo : Nat
  wValueHi : Nat
  deriving DecidableEq, Repr

/-- The cast `usbRequest_t *rq = (void *)data`: the setup packet starts with
bmRequestType, bRequest and the two bytes of wValue (low byte first). -/
def rqOf (data : List Nat) : usbRequest_t :=
  { bmRequestType := rd data 0 % 256, bRequest := rd data 1 % 256,
    wValueLo := rd data 2 % 256, wValueHi := rd data 3 % 256 }

/-- What `usbMsgPtr` points at. -/
inductive MsgPtr where
  | unset
  | reportBuffer
  | idleRate
  deriving DecidableEq, Repr

/-- The variables of the program. -/
structure State where
  reportBuffer : List Nat
  idleRate : Nat
  usbMsgPtr : MsgPtr
  changed : Bool
  ppmNewData : Bool
  deriving DecidableEq, Repr

/-- The function `usbFunctionSetup(uchar data[8])`: new state and returned length. -/
def usbFunctionSetup (K : UsbConsts) (s : State) (data : List Nat) : State × Nat :=
  let rq := rqOf data
  if rq.bmRequestType &&& K.USBRQ_TYPE_MASK = K.USBRQ_TYPE_CLASS then
    if rq.bRequest = K.USBRQ_HID_GET_REPORT then
      ({ s with usbMsgPtr := MsgPtr.reportBuffer }, sizeofReportBuffer)
    else if rq.bRequest = K.USBRQ_HID_GET_IDLE then
      ({ s with usbMsgPtr := MsgPtr.idleRate }, 1)
    else if rq.bRequest = K.USBRQ_HID_SET_IDLE then
      ({ s with idleRate := rq.wValueHi }, 0)
    else (s, 0)
  else (s, 0)

/-! ## Main loop (main.c lines 129-185) -/

/-- State at `for(;;)`: statics are zero, `changed=0`, `ppmNewData=1`. -/
def init : State :=
  { reportBuffer := List.replicate 8 0, idleRate := 0, usbMsgPtr := MsgPtr.unset,
    changed := false, ppmNewData := true }

/-- The call `usbPoll()`: the driver invokes the setup callback when a setup
packet has arrived. -/
def usbPoll (K : UsbConsts) (s : State) (setup : Option (List Nat)) : State :=
  match setup with
  | none => s
  | some data => (usbFunctionSetup K s data).1

/-- The statement `if (ppmNewData) { ... }` of the main loop, lines 136-184. -/
def newDataBranch (s : State) (ppm : Nat → Nat) (ready : Bool) : State × List UsbCall :=
  if s.ppmNewData then
    let p := reportBuilderPass ppm s.reportBuffer s.changed
    let g := transportGate p.1 p.2 ready
    ({ s with ppmNewData := false, reportBuffer := p.1, changed := g.1 }, g.2)
  else (s, [])

/-- What the environment does around one iteration. -/
structure Tick where
  /-- the PPM interrupt has set `ppmNewData` since the last test of the flag -/
  newData : Bool
  /-- channel values `ppmGet` reads during the iteration -/
  ppm : Nat → Nat
  /-- result of `usbInterruptIsReady()` during the iteration -/
  ready : Bool
  /-- setup packet handled inside `usbPoll()`, if any -/
  setup : Option (List Nat)

/-- The PPM interrupt: sets `ppmNewData` when a frame has been decoded. -/
def ppmIsr (s : State) (newData : Bool) : State :=
  if newData then { s with ppmNewData := true } else s

/-- One iteration of `for(;;)`: `usbPoll()`, then the new-data branch. -/
def loopBody (K : UsbConsts) (s : State) (ppm : Nat → Nat) (ready : Bool)
    (setup : Option (List Nat)) : State × List UsbCall :=
  newDataBranch (usbPoll K s setup) ppm ready

/-- One loop tick: the interrupt may fire, then one iteration runs. -/
def tick (K : UsbConsts) (s : State) (t : Tick) : State × List UsbCall :=
  loopBody K (ppmIsr s t.newData) t.ppm t.ready t.setup

/-- A run of ticks: final state and all `usbSetInterrupt` calls, in order. -/
def run (K : UsbConsts) : State → List Tick → State × List UsbCall
  | s, [] => (s, [])
  | s, t :: ts =>
    let r := tick K s t
    let r2 := run K r.1 ts
    (r2.1, r.2 ++ r2.2)

/-- The frame of the spec's end-to-end scenario. -/
def frame0 : Nat → Nat := frameOf [10, 20, 30, 40, 50, 170, 30, 0]

/-- Channel frame `ppm` with channel `i` replaced by `v`. -/
def setCh (ppm : Nat → Nat) (i v : Nat) : Nat → Nat := fun j => if j = i then v else ppm j

/-- The all-zero report buffer the program starts with. -/
def zeroBuf : List Nat := List.replicate 8 0

/-- A tick on which the PPM source signals the frame `ppm`; no setup packet. -/
def tkData (ppm : Nat → Nat) (ready : Bool) : Tick :=
  { newData := true, ppm := ppm, ready := ready, setup := none }

/-- A tick on which the PPM source signals nothing; no setup packet. -/
def tkIdle (ppm : Nat → Nat) (ready : Bool) : Tick :=
  { newData := false, ppm := ppm, ready := ready, setup := none }

/-- The state after the first loop iteration when the endpoint was busy: the
report of `frame0` is built and pending, the new-data flag is consumed. -/
def pendingState : State := (run vusb init [tkData frame0 false]).1

/-- Two ticks with a busy endpoint: one without new data, one with a new frame. -/
def busyTicks : List Tick := [tkIdle frame0 false, tkData (setCh frame0 1 99) false]

/-- What the report invariant demands of the button byte: Button3 and Button4
not both set, Button1 and Button2 not both set, high nibble zero. -/
def ButtonByteOk (m : Nat) : Prop :=
  m &&& 0x0C ≠ 0x0C ∧ m &&& 0x03 ≠ 0x03 ∧ m &&& 0xF0 = 0

/-- Invariant of the main loop on the report buffer. -/
def BufInv (s : State) : Prop :=
  s.reportBuffer.length = 8 ∧ ∃ x y, rd s.reportBuffer 4 = b5 x ||| b6 y

/-! ## HID report descriptor (main.c lines 38-71) -/

/-- The table `PROGMEM char usbHidReportDescriptor[62]`, byte for byte. -/
def usbHidReportDescriptor : List Nat :=
  [0x05, 0x01, 0x15, 0x00, 0x26, 0xff, 0x00, 0x75, 0x08, 0x09, 0x04, 0xa1, 0x01,
   0x09, 0x01, 0xa1, 0x00, 0x09, 0x30, 0x09, 0x31, 0x95, 0x02, 0x81, 0x82, 0xc0,
   0xa1, 0x00, 0x09, 0x32, 0x09, 0x33, 0x95, 0x02, 0x81, 0x82, 0xc0,
   0x05, 0x09, 0x19, 0x01, 0x29, 0x04, 0x15, 0x00, 0x25, 0x01, 0x75, 0x01,
   0x95, 0x04, 0x65, 0x00, 0x81, 0x02, 0x95, 0x01, 0x75, 0x04, 0x81, 0x03, 0xc0]

/-- One short item of a report descriptor: the prefix byte with its two size
bits cleared (tag and type), and the value of its data bytes. -/
structure HidItem where
  tag : Nat
  value : Nat
  deriving DecidableEq, Repr

/-- Value of the data bytes of an item, least significant byte first. -/
def leValue (bytes : List Nat) : Nat := bytes.foldr (fun b acc => b + 256 * acc) 0

/-- Split a descriptor into its short items: the low two bits of a prefix byte
give the number of data bytes (0, 1, 2, or 4 for the code 3). `none` when
the bytes end inside an item. -/
def hidItems : Nat → List Nat → Option (List HidItem)
  | _, [] => some []
  | 0, _ :: _ => none
  | fuel + 1, b :: rest =>
    let n := if b &&& 3 = 3 then 4 else b &&& 3
    if rest.length < n then none
    else
      match hidItems fuel (rest.drop n) with
      | none => none
      | some items => some (⟨b &&& 0xFC, leValue (rest.take n)⟩ :: items)

/-- One Input main item together with the global and local items in force. -/
structure HidField where
  flags : Nat
  usagePage : Nat
  logicalMin : Nat
  logicalMax : Nat
  reportSize : Nat
  reportCount : Nat
  usages : List Nat
  usageMin : Option Nat
  usageMax : Option Nat
  deriving DecidableEq, Repr

/-- Item state while reading a descriptor; `flags` is unused in it. -/
def hidStart : HidField :=
  { flags := 0, usagePage := 0, logicalMin := 0, logicalMax := 0, reportSize := 0,
    reportCount := 0, usages := [], usageMin := none, usageMax := none }

/-- Drop the local items (usages), as every main item does. -/
def clearLocals (g : HidField) : HidField :=
  { g with usages := [], usageMin := none, usageMax := none }

/-- The Input fields a list of items declares. Global items (usage page 0x04,
logical minimum 0x14, logical maximum 0x24, report size 0x74, report count
0x94) stay in force, local items (usage 0x08, usage minimum 0x18, usage
maximum 0x28) last until the next main item; Input is the main item 0x80. -/
def inputFields : HidField → List HidItem → List HidField
  | _, [] => []
  | g, it :: its =>
    if it.tag = 0x80 then { g with flags := it.value } :: inputFields (clearLocals g) its
    else if it.tag = 0x90 ∨ it.tag = 0xB0 ∨ it.tag = 0xA0 ∨ it.tag = 0xC0 then
      inputFields (clearLocals g) its
    else if it.tag = 0x04 then inputFields { g with usagePage := it.value } its
    else if it.tag = 0x14 then inputFields { g with logicalMin := it.value } its
    else if it.tag = 0x24 then inputFields { g with logicalMax := it.value } its
    else if it.tag = 0x74 then inputFields { g with reportSize := it.value } its
    else if it.tag = 0x94 then inputFields { g with reportCount := it.value } its
    else if it.tag = 0x08 then inputFields { g with usages := g.usages ++ [it.value] } its
    else if it.tag = 0x18 then inputFields { g with usageMin := some it.value } its
    else if it.tag = 0x28 then inputFields { g with usageMax := some it.value } its
    else inputFields g its

/-- Number of bits of the input report a list of fields declares. -/
def reportBits (fs : List HidField) : Nat := (fs.map (fun f => f.reportSize * f.reportCount)).sum

/-- The Input fields declared by `usbHidReportDescriptor`. -/
def declaredFields : Option (List HidField) :=
  (hidItems usbHidReportDescriptor.length usbHidReportDescriptor).map (inputFields hidStart)

/-! ## The channel scan with its memory accesses and loop counter -/

/-- What a Report Builder pass does to the memory and to the PPM source. -/
inductive Ev where
  /-- the assignment `ppmNewData=0` -/
  | clearNewData
  /-- the loop body is entered with counter `i` -/
  | iter (i : Nat)
  /-- the call `ppmGet(i)` -/
  | ppmGet (i : Nat)
  /-- a read of `remapChannelLut[i]`, giving `v` -/
  | lutRead (i v : Nat)
  /-- a read of `reportBuffer[k]` -/
  | bufRead (k : Nat)
  /-- a write of `reportBuffer[k]` -/
  | bufWrite (k : Nat)
  deriving DecidableEq, Repr

/-- The loop body of the channel scan as in `scanStep`, with the accesses it
makes, in order. -/
def scanStepT (ppm : Nat → Nat) (st : List Nat × Bool) (i : Nat) :
    (List Nat × Bool) × List Ev :=
  let val := ppmGet ppm i
  if i < 5 then
    let k := rd remapChannelLut i
    if rd st.1 k ≠ val then
      ((wr st.1 k val, true),
        [Ev.ppmGet i, Ev.lutRead i k, Ev.bufRead k, Ev.lutRead i k, Ev.bufWrite k])
    else (st, [Ev.ppmGet i, Ev.lutRead i k, Ev.bufRead k])
  else
    if i = 5 then
      let b0 := wr st.1 4 0
      if val > 160 then ((wr b0 4 0x8, st.2), [Ev.ppmGet i, Ev.bufWrite 4, Ev.bufWrite 4])
      else if val < 90 then ((wr b0 4 0x4, st.2), [Ev.ppmGet i, Ev.bufWrite 4, Ev.bufWrite 4])
      else ((b0, st.2), [Ev.ppmGet i, Ev.bufWrite 4])
    else if i = 6 then
      if val > 200 then
        ((wr st.1 4 (rd st.1 4 ||| 0x2), st.2), [Ev.ppmGet i, Ev.bufRead 4, Ev.bufWrite 4])
      else if val < 56 then
        ((wr st.1 4 (rd st.1 4 ||| 0x1), st.2), [Ev.ppmGet i, Ev.bufRead 4, Ev.bufWrite 4])
      else (st, [Ev.ppmGet i])
    else (st, [Ev.ppmGet i])

/-- The loop `for (i=0;i<(sizeof(reportBuffer)-1);i++)` from counter value `i`
on, with the `uchar` counter incremented modulo 256; `fuel` bounds the number
of tests of the loop condition, `none` when it is used up. -/
def scanLoop (ppm : Nat → Nat) :
    Nat → Nat → (List Nat × Bool) × List Ev → Option ((List Nat × Bool) × List Ev)
  | 0, _, _ => none
  | fuel + 1, i, acc =>
    if i < sizeofReportBuffer - 1 then
      scanLoop ppm fuel ((i + 1) % 256)
        ((scanStepT ppm acc.1 i).1, acc.2 ++ Ev.iter i :: (scanStepT ppm acc.1 i).2)
    else some acc

/-- The Report Builder pass as in `reportBuilderPass`, with its accesses: the
read of `reportBuffer[4]` into `oldReportBufferVal`, the loop, and the read of
`reportBuffer[4]` of the final comparison. -/
def reportBuilderPassT (ppm : Nat → Nat) (buf : List Nat) (changed : Bool) (fuel : Nat) :
    Option ((List Nat × Bool) × List Ev) :=
  let oldReportBufferVal := rd buf 4
  match scanLoop ppm fuel 0 ((buf, changed), [Ev.bufRead 4]) with
  | none => none
  | some (st, tr) =>
    some (if rd st.1 4 ≠ oldReportBufferVal then (st.1, true) else st, tr ++ [Ev.bufRead 4])

/-- The statement `if (ppmNewData) { ... }` as in `newDataBranch`, with the
accesses of the pass after the assignment `ppmNewData=0`. -/
def newDataBranchT (s : State) (ppm : Nat → Nat) (ready : Bool) (fuel : Nat) :
    Option ((State × List UsbCall) × List Ev) :=
  if s.ppmNewData then
    match reportBuilderPassT ppm s.reportBuffer s.changed fuel with
    | none => none
    | some (p, tr) =>
      let g := transportGate p.1 p.2 ready
      some (({ s with ppmNewData := false, reportBuffer := p.1, changed := g.1 }, g.2),
        Ev.clearNewData :: tr)
  else some ((s, []), [])

/-- The counters with which the loop body was entered, in order. -/
def iterations (tr : List Ev) : List Nat :=
  tr.filterMap (fun e => match e with | Ev.iter i => some i | _ => none)

/-- The channels read with `ppmGet`, in order. -/
def channelsRead (tr : List Ev) : List Nat :=
  tr.filterMap (fun e => match e with | Ev.ppmGet i => some i | _ => none)

/-- An access within bounds: `ppmGet` below 8 channels, `remapChannelLut` at an
index below 5 with a value in 0..4, `reportBuffer` within its 8 bytes. -/
def EvOk (e : Ev) : Prop :=
  match e with
  | Ev.ppmGet i => i < 8
  | Ev.lutRead i v => i < 5 ∧ v ≤ 4
  | Ev.bufRead k => k < 8
  | Ev.bufWrite k => k < 8
  | _ => True

/-! ## Boot (main.c lines 116-122) -/

/-- The loop `uchar i = 0; while(--i){ wdt_reset(); _delay_ms(1); }` from counter
value `i` on: `--i` is a decrement modulo 256, `n` counts the delays made so
far and the result is their final number; `fuel` bounds the number of tests
of the loop condition, `none` when it is used up. -/
def disconnectLoop : Nat → Nat → Nat → Option Nat
  | 0, _, _ => none
  | fuel + 1, i, n =>
    if (i + 255) % 256 ≠ 0 then disconnectLoop fuel ((i + 255) % 256) (n + 1)
    else some n

/-! ## Control replies -/

/-- Modelled from the spec: the driver (not part of main.c) answers a setup
request with the `len` bytes found at `usbMsgPtr`, `len` being the value
returned by `usbFunctionSetup`. -/
def usbMsg (s : State) (len : Nat) : List Nat :=
  match s.usbMsgPtr with
  | MsgPtr.unset => []
  | MsgPtr.reportBuffer => s.reportBuffer.take len
  | MsgPtr.idleRate => [s.idleRate].take len

/-- A setup packet is a class-type request with opcode `op`. -/
def IsClassRq (K : UsbConsts) (data : List Nat) (op : Nat) : Prop :=
  (rqOf data).bmRequestType &&& K.USBRQ_TYPE_MASK = K.USBRQ_TYPE_CLASS ∧
  (rqOf data).bRequest = op

/-- Invariant of the main loop: the report buffer has 8 bytes, the last three zero. -/
def TailInv (s : State) : Prop :=
  s.reportBuffer.length = 8 ∧ s.reportBuffer.drop 5 = [0, 0, 0]

/-- Two ticks with new data; the second handles a SET_IDLE inside usbPoll. -/
def tailTicks : List Tick :=
  [tkData frame0 true,
   { newData := true, ppm := setCh frame0 5 0, ready := false,
     setup := some [0x21, 0x0A, 0, 0x7D, 0, 0, 0, 0] }]

/-- A recorded table read carries the value of the table. -/
def LutOk (e : Ev) : Prop :=
  match e with
  | Ev.lutRead i v => v = rd remapChannelLut i
  | _ => True

/-! ## Auxiliary lemmas -/

theorem buf_eq_of_length {buf : List Nat} (h : buf.length = 8) :
    ∃ a0 a1 a2 a3 a4 a5 a6 a7, buf = [a0, a1, a2, a3, a4, a5, a6, a7] := by
  match buf, h with
  | [a0, a1, a2, a3, a4, a5, a6, a7], _ => exact ⟨_, _, _, _, _, _, _, _, rfl⟩

theorem wr_rd_self (buf : List Nat) (i : Nat) : wr buf i (rd buf i) = buf := by
  induction buf generalizing i with
  | nil => simp [wr]
  | cons a t ih =>
    cases i with
    | zero => simp [wr, rd]
    | succ k =>
      have := ih k
      simp only [wr, rd, List.set_cons_succ, List.getD_cons_succ] at this ⊢
      rw [this]

/-- The buffer component of one scan step, without the comparison. -/
theorem scanStep_fst (ppm : Nat → Nat) (st : List Nat × Bool) (i : Nat) :
    (scanStep ppm st i).1 =
      if i < 5 then wr st.1 (rd remapChannelLut i) (ppmGet ppm i)
      else if i = 5 then wr st.1 4 (b5 (ppmGet ppm 5))
      else if i = 6 then wr st.1 4 (rd st.1 4 ||| b6 (ppmGet ppm 6))
      else st.1 := by
  unfold scanStep
  by_cases h5 : i < 5
  · simp only [h5, if_true]
    by_cases hv : rd st.1 (rd remapChannelLut i) = ppmGet ppm i
    · simp only [hv, ne_eq, not_true_eq_false, if_false]
      rw [← hv, wr_rd_self]
    · simp [hv]
  · simp only [h5, if_false]
    by_cases e5 : i = 5
    · subst e5
      simp only [if_true, b5, wr, List.set_set]
      split_ifs <;> rfl
    · simp only [e5, if_false]
      by_cases e6 : i = 6
      · subst e6
        simp only [if_true, b6]
        split_ifs <;> simp [wr_rd_self]
      · simp [e6]

/-- A scan step never clears the changed flag. -/
theorem scanStep_snd_true (ppm : Nat → Nat) (st : List Nat × Bool) (i : Nat)
    (h : st.2 = true) : (scanStep ppm st i).2 = true := by
  simp only [scanStep]
  split_ifs <;> first | rfl | exact h

theorem foldl_scanStep_snd_true (ppm : Nat → Nat) (l : List Nat) (st : List Nat × Bool)
    (h : st.2 = true) : (l.foldl (scanStep ppm) st).2 = true := by
  induction l generalizing st with
  | nil => exact h
  | cons i t ih => exact ih _ (scanStep_snd_true ppm st i h)

theorem range_scan : List.range (sizeofReportBuffer - 1) = [0, 1, 2, 3, 4, 5, 6] := by
  decide

/-- Closed form of the buffer after the channel scan. -/
theorem channelScan_fst (ppm : Nat → Nat) (a0 a1 a2 a3 a4 a5 a6 a7 : Nat) (c : Bool) :
    (channelScan ppm ([a0, a1, a2, a3, a4, a5, a6, a7], c)).1 =
      [ppmGet ppm 1, ppmGet ppm 2, ppmGet ppm 3, ppmGet ppm 4,
        b5 (ppmGet ppm 5) ||| b6 (ppmGet ppm 6), a5, a6, a7] := by
  unfold channelScan
  rw [range_scan]
  simp only [List.foldl, scanStep_fst]
  simp [wr, rd, remapChannelLut]

theorem reportBuilderPass_fst (ppm : Nat → Nat) (buf : List Nat) (c : Bool) :
    (reportBuilderPass ppm buf c).1 = (channelScan ppm (buf, c)).1 := by
  unfold reportBuilderPass
  simp only []
  split_ifs <;> rfl

/-- Closed form of the buffer after one Report Builder pass. -/
theorem reportBuilderPass_buf (ppm : Nat → Nat) (a0 a1 a2 a3 a4 a5 a6 a7 : Nat) (c : Bool) :
    (reportBuilderPass ppm [a0, a1, a2, a3, a4, a5, a6, a7] c).1 =
      [ppmGet ppm 1, ppmGet ppm 2, ppmGet ppm 3, ppmGet ppm 4,
        b5 (ppmGet ppm 5) ||| b6 (ppmGet ppm 6), a5, a6, a7] := by
  rw [reportBuilderPass_fst, channelScan_fst]

/-- A pass never clears the changed flag. -/
theorem reportBuilderPass_snd_true (ppm : Nat → Nat) (buf : List Nat) (c : Bool)
    (h : c = true) : (reportBuilderPass ppm buf c).2 = true := by
  have hs : (channelScan ppm (buf, c)).2 = true :=
    foldl_scanStep_snd_true ppm _ (buf, c) h
  unfold reportBuilderPass
  simp only []
  split_ifs
  · rfl
  · exact hs

theorem reportBuilderPass_length (ppm : Nat → Nat) (buf : List Nat) (c : Bool)
    (h : buf.length = 8) : (reportBuilderPass ppm buf c).1.length = 8 := by
  obtain ⟨a0, a1, a2, a3, a4, a5, a6, a7, rfl⟩ := buf_eq_of_length h
  rw [reportBuilderPass_buf]
  rfl

/-! ### The main loop -/

theorem usbFunctionSetup_frame (K : UsbConsts) (s : State) (data : List Nat) :
    (usbFunctionSetup K s data).1.reportBuffer = s.reportBuffer ∧
    (usbFunctionSetup K s data).1.changed = s.changed ∧
    (usbFunctionSetup K s data).1.ppmNewData = s.ppmNewData := by
  unfold usbFunctionSetup
  simp only []
  split_ifs <;> exact ⟨rfl, rfl, rfl⟩

theorem usbPoll_frame (K : UsbConsts) (s : State) (setup : Option (List Nat)) :
    (usbPoll K s setup).reportBuffer = s.reportBuffer ∧
    (usbPoll K s setup).changed = s.changed ∧
    (usbPoll K s setup).ppmNewData = s.ppmNewData := by
  cases setup with
  | none => exact ⟨rfl, rfl, rfl⟩
  | some data => exact usbFunctionSetup_frame K s data

theorem ppmIsr_frame (s : State) (nd : Bool) :
    (ppmIsr s nd).reportBuffer = s.reportBuffer ∧
    (ppmIsr s nd).changed = s.changed ∧
    (ppmIsr s nd).ppmNewData = (s.ppmNewData || nd) := by
  cases nd <;> simp [ppmIsr]

/-- The state in which the new-data test of a tick is made. -/
theorem tick_pre (K : UsbConsts) (s : State) (t : Tick) :
    (usbPoll K (ppmIsr s t.newData) t.setup).reportBuffer = s.reportBuffer ∧
    (usbPoll K (ppmIsr s t.newData) t.setup).changed = s.changed ∧
    (usbPoll K (ppmIsr s t.newData) t.setup).ppmNewData = (s.ppmNewData || t.newData) := by
  obtain ⟨h1, h2, h3⟩ := usbPoll_frame K (ppmIsr s t.newData) t.setup
  obtain ⟨g1, g2, g3⟩ := ppmIsr_frame s t.newData
  exact ⟨h1.trans g1, h2.trans g2, h3.trans g3⟩

/-- A tick without new data: no pass, no send. -/
theorem tick_noData (K : UsbConsts) (s : State) (t : Tick)
    (h : (s.ppmNewData || t.newData) = false) :
    (tick K s t).2 = [] ∧ (tick K s t).1.reportBuffer = s.reportBuffer ∧
    (tick K s t).1.changed = s.changed ∧ (tick K s t).1.ppmNewData = false := by
  obtain ⟨h1, h2, h3⟩ := tick_pre K s t
  rw [h] at h3
  simp only [tick, loopBody, newDataBranch, h3]
  exact ⟨rfl, h1, h2, h3⟩

/-- A tick with new data: one pass, then the gate on its result. -/
theorem tick_data (K : UsbConsts) (s : State) (t : Tick)
    (h : (s.ppmNewData || t.newData) = true) :
    (tick K s t).1.reportBuffer = (reportBuilderPass t.ppm s.reportBuffer s.changed).1 ∧
    (tick K s t).1.changed =
      (transportGate (reportBuilderPass t.ppm s.reportBuffer s.changed).1
        (reportBuilderPass t.ppm s.reportBuffer s.changed).2 t.ready).1 ∧
    (tick K s t).2 =
      (transportGate (reportBuilderPass t.ppm s.reportBuffer s.changed).1
        (reportBuilderPass t.ppm s.reportBuffer s.changed).2 t.ready).2 ∧
    (tick K s t).1.ppmNewData = false := by
  obtain ⟨h1, h2, h3⟩ := tick_pre K s t
  rw [h] at h3
  simp [tick, loopBody, newDataBranch, h3, h1, h2]

theorem run_append (K : UsbConsts) (s : State) (ts us : List Tick) :
    run K s (ts ++ us) =
      ((run K (run K s ts).1 us).1, (run K s ts).2 ++ (run K (run K s ts).1 us).2) := by
  induction ts generalizing s with
  | nil => simp [run]
  | cons t ts ih => simp [run, ih, List.append_assoc]

/-- A pending report stays pending, unsent, over ticks on which the endpoint
is not ready. -/
theorem run_notReady (K : UsbConsts) (ts : List Tick) (s : State)
    (hc : s.changed = true) (hr : ∀ x ∈ ts, x.ready = false) :
    (run K s ts).2 = [] ∧ (run K s ts).1.changed = true := by
  induction ts generalizing s with
  | nil => exact ⟨rfl, hc⟩
  | cons t ts ih =>
    have ht : t.ready = false := hr t (List.mem_cons_self _ _)
    have hts : ∀ x ∈ ts, x.ready = false := fun x hx => hr x (List.mem_cons_of_mem _ hx)
    have step : (tick K s t).2 = [] ∧ (tick K s t).1.changed = true := by
      cases hd : (s.ppmNewData || t.newData) with
      | false =>
        obtain ⟨a, _, c, _⟩ := tick_noData K s t hd
        exact ⟨a, c.trans hc⟩
      | true =>
        obtain ⟨_, c, a, _⟩ := tick_data K s t hd
        have hp := reportBuilderPass_snd_true t.ppm s.reportBuffer s.changed hc
        rw [hp, ht] at c a
        exact ⟨a, c⟩
    obtain ⟨i1, i2⟩ := ih (tick K s t).1 step.2 hts
    simp only [run]
    rw [step.1, i1]
    exact ⟨rfl, i2⟩

theorem b5_b6_ok (x y : Nat) : ButtonByteOk (b5 x ||| b6 y) := by
  unfold ButtonByteOk b5 b6
  split_ifs <;> decide

/-- A tick with changed set, new data and a ready endpoint. -/
theorem tick_ready_data (K : UsbConsts) (s : State) (t : Tick)
    (hc : s.changed = true) (hr : t.ready = true)
    (hd : (s.ppmNewData || t.newData) = true) :
    (tick K s t).1.reportBuffer = (reportBuilderPass t.ppm s.reportBuffer true).1 ∧
    (tick K s t).1.changed = false ∧
    (tick K s t).2 = [usbSetInterrupt (tick K s t).1.reportBuffer 5] := by
  obtain ⟨b, c, a, _⟩ := tick_data K s t hd
  have hp := reportBuilderPass_snd_true t.ppm s.reportBuffer s.changed hc
  rw [hp, hr] at c a
  rw [hc] at b
  rw [b]
  rw [hc] at a c
  exact ⟨rfl, c, a⟩

theorem tick_BufInv (K : UsbConsts) (s : State) (t : Tick) (h : BufInv s) :
    BufInv (tick K s t).1 := by
  cases hd : (s.ppmNewData || t.newData) with
  | false =>
    obtain ⟨_, b, _, _⟩ := tick_noData K s t hd
    unfold BufInv
    rw [b]
    exact h
  | true =>
    obtain ⟨b, _, _, _⟩ := tick_data K s t hd
    obtain ⟨a0, a1, a2, a3, a4, a5, a6, a7, e⟩ := buf_eq_of_length h.1
    unfold BufInv
    rw [b, e, reportBuilderPass_buf]
    exact ⟨rfl, _, _, rfl⟩

theorem run_BufInv (K : UsbConsts) (ts : List Tick) (s : State) (h : BufInv s) :
    BufInv (run K s ts).1 := by
  induction ts generalizing s with
  | nil => exact h
  | cons t ts ih => exact ih _ (tick_BufInv K s t h)

theorem init_BufInv : BufInv init := ⟨rfl, 100, 100, by decide⟩

/-! ## Claims -/

/-- C1 (as stated, refuted): it is not the case that for every frame and
prior buffer the pass leaves report[0]=ch[4], report[1]=ch[0], report[2]=ch[1],
report[3]=ch[2]; the scenario frame from the zero buffer gives report[0]=ch[1]=20. -/
theorem C1_remap_as_stated_fails :
    ¬ (∀ (ppm : Nat → Nat) (buf : List Nat) (c : Bool), buf.length = 8 →
        rd (reportBuilderPass ppm buf c).1 0 = ppmGet ppm 4 ∧
        rd (reportBuilderPass ppm buf c).1 1 = ppmGet ppm 0 ∧
        rd (reportBuilderPass ppm buf c).1 2 = ppmGet ppm 1 ∧
        rd (reportBuilderPass ppm buf c).1 3 = ppmGet ppm 2) := by
  intro h
  have h0 := (h frame0 zeroBuf false rfl).1
  revert h0
  decide

/-- C1 (amended): for every frame and every prior 8-byte report buffer, after
one Report Builder pass report[0]=ch[1], report[1]=ch[2], report[2]=ch[3],
report[3]=ch[4] (the code writes reportBuffer[remapChannelLut[i]] = ch[i]). -/
theorem C1_remap_amended (ppm : Nat → Nat) (buf : List Nat) (c : Bool)
    (h : buf.length = 8) :
    rd (reportBuilderPass ppm buf c).1 0 = ppmGet ppm 1 ∧
    rd (reportBuilderPass ppm buf c).1 1 = ppmGet ppm 2 ∧
    rd (reportBuilderPass ppm buf c).1 2 = ppmGet ppm 3 ∧
    rd (reportBuilderPass ppm buf c).1 3 = ppmGet ppm 4 := by
  obtain ⟨a0, a1, a2, a3, a4, a5, a6, a7, rfl⟩ := buf_eq_of_length h
  rw [reportBuilderPass_buf]
  exact ⟨rfl, rfl, rfl, rfl⟩

/-- C1 (amended), instance: the scenario frame on the buffer [1,2,3,4,5,6,7,8]. -/
theorem C1_remap_amended_witness :
    [1, 2, 3, 4, 5, 6, 7, 8].length = 8 ∧
    rd (reportBuilderPass frame0 [1, 2, 3, 4, 5, 6, 7, 8] false).1 0 = 20 ∧
    rd (reportBuilderPass frame0 [1, 2, 3, 4, 5, 6, 7, 8] false).1 1 = 30 ∧
    rd (reportBuilderPass frame0 [1, 2, 3, 4, 5, 6, 7, 8] false).1 2 = 40 ∧
    rd (reportBuilderPass frame0 [1, 2, 3, 4, 5, 6, 7, 8] false).1 3 = 50 :=
  ⟨rfl, C1_remap_amended frame0 [1, 2, 3, 4, 5, 6, 7, 8] false rfl⟩

/-- C2: for every frame and every prior 8-byte report buffer, report byte 4
after one Report Builder pass equals b5 OR b6 of channels 5 and 6, hence any
two passes whose frames agree on channels 5 and 6 give the same byte 4. -/
theorem C2_button_byte (ppm : Nat → Nat) (buf : List Nat) (c : Bool)
    (h : buf.length = 8) :
    rd (reportBuilderPass ppm buf c).1 4 = b5 (ppmGet ppm 5) ||| b6 (ppmGet ppm 6) ∧
    ∀ (ppm2 : Nat → Nat) (buf2 : List Nat) (c2 : Bool), buf2.length = 8 →
      ppmGet ppm2 5 = ppmGet ppm 5 → ppmGet ppm2 6 = ppmGet ppm 6 →
      rd (reportBuilderPass ppm2 buf2 c2).1 4 = rd (reportBuilderPass ppm buf c).1 4 := by
  have key : ∀ (p : Nat → Nat) (b : List Nat) (d : Bool), b.length = 8 →
      rd (reportBuilderPass p b d).1 4 = b5 (ppmGet p 5) ||| b6 (ppmGet p 6) := by
    intro p b d hb
    obtain ⟨a0, a1, a2, a3, a4, a5, a6, a7, rfl⟩ := buf_eq_of_length hb
    rw [reportBuilderPass_buf]
    rfl
  refine ⟨key ppm buf c h, ?_⟩
  intro ppm2 buf2 c2 h2 e5 e6
  rw [key ppm2 buf2 c2 h2, key ppm buf c h, e5, e6]

/-- C2, instance: the scenario frame (ch5 = 170, ch6 = 30) on the zero buffer
gives byte 4 = 0x08 OR 0x01. -/
theorem C2_button_byte_witness :
    zeroBuf.length = 8 ∧
    (rd (reportBuilderPass frame0 zeroBuf false).1 4 = b5 (ppmGet frame0 5) ||| b6 (ppmGet frame0 6) ∧
    ∀ (ppm2 : Nat → Nat) (buf2 : List Nat) (c2 : Bool), buf2.length = 8 →
      ppmGet ppm2 5 = ppmGet frame0 5 → ppmGet ppm2 6 = ppmGet frame0 6 →
      rd (reportBuilderPass ppm2 buf2 c2).1 4 = rd (reportBuilderPass frame0 zeroBuf false).1 4) :=
  ⟨rfl, C2_button_byte frame0 zeroBuf false rfl⟩

/-- C3 (code at the failing input): the frame [10,20,30,40,50,170,30,0] is
built and sent, then fed again unchanged. The second pass sets changed
although it rebuilds the very same buffer, and the main loop sends the same
report twice. -/
theorem C3_same_frame_resent :
    (reportBuilderPass frame0 (reportBuilderPass frame0 zeroBuf false).1 false).2 = true ∧
    (reportBuilderPass frame0 (reportBuilderPass frame0 zeroBuf false).1 false).1 =
      (reportBuilderPass frame0 zeroBuf false).1 ∧
    (run vusb init [tkData frame0 true, tkData frame0 true]).2 =
      [⟨[20, 30, 40, 50, 9], 5⟩, ⟨[20, 30, 40, 50, 9], 5⟩] := by
  decide

/-- C4: the transport gate with changed set and the endpoint ready makes exactly
one usbSetInterrupt call, of length 5, carrying the first five bytes of the
report buffer (for an 8-byte buffer: bytes 0..4, not the last three), and
clears changed; with changed clear it makes no call and leaves changed as it
is, whatever the endpoint says. The gate has no write to the report buffer. -/
theorem C4_transport_gate (buf : List Nat) (a0 a1 a2 a3 a4 a5 a6 a7 : Nat) (ready : Bool) :
    transportGate buf true true = (false, [⟨buf.take 5, 5⟩]) ∧
    transportGate [a0, a1, a2, a3, a4, a5, a6, a7] true true =
      (false, [⟨[a0, a1, a2, a3, a4], 5⟩]) ∧
    transportGate buf false ready = (false, []) := by
  refine ⟨rfl, rfl, ?_⟩
  cases ready <;> rfl

/-- C5 (as stated, refuted): it is not the case that every loop tick with
changed set and the endpoint ready sends the report and clears changed; from
the pending state, a tick without new data sends nothing. -/
theorem C5_gate_every_tick_fails :
    ¬ (∀ (K : UsbConsts) (s : State) (t : Tick), s.changed = true → t.ready = true →
        (tick K s t).2 = [usbSetInterrupt (tick K s t).1.reportBuffer 5] ∧
        (tick K s t).1.changed = false) := by
  intro h
  have h0 := (h vusb pendingState (tkIdle frame0 true) (by decide) rfl).1
  revert h0
  decide

/-- C5 (amended): for every state with changed set and the endpoint ready, a
loop tick on which new data is signalled (ppmNewData set) sends exactly the
report built on that tick and clears changed. -/
theorem C5_gate_on_new_data (K : UsbConsts) (s : State) (t : Tick)
    (hc : s.changed = true) (hr : t.ready = true)
    (hd : (s.ppmNewData || t.newData) = true) :
    (tick K s t).1.reportBuffer = (reportBuilderPass t.ppm s.reportBuffer true).1 ∧
    (tick K s t).2 = [usbSetInterrupt (tick K s t).1.reportBuffer 5] ∧
    (tick K s t).1.changed = false := by
  obtain ⟨b, c, a, _⟩ := tick_data K s t hd
  have hp := reportBuilderPass_snd_true t.ppm s.reportBuffer s.changed hc
  rw [hp, hr] at c a
  rw [hc] at b
  rw [b]
  rw [hc] at a c
  exact ⟨rfl, a, c⟩

/-- C5 (amended), instance: from the pending state, a ready tick carrying the
frame again. -/
theorem C5_gate_on_new_data_witness :
    pendingState.changed = true ∧ (tkData frame0 true).ready = true ∧
    (pendingState.ppmNewData || (tkData frame0 true).newData) = true ∧
    ((tick vusb pendingState (tkData frame0 true)).1.reportBuffer =
        (reportBuilderPass (tkData frame0 true).ppm pendingState.reportBuffer true).1 ∧
      (tick vusb pendingState (tkData frame0 true)).2 =
        [usbSetInterrupt (tick vusb pendingState (tkData frame0 true)).1.reportBuffer 5] ∧
      (tick vusb pendingState (tkData frame0 true)).1.changed = false) :=
  ⟨by decide, rfl, by decide,
    C5_gate_on_new_data vusb pendingState (tkData frame0 true) (by decide) rfl (by decide)⟩

/-- C6 (as stated, refuted): it is not the case that after any run of
not-ready ticks from a pending state, the first ready tick makes exactly one
send; from the pending state, a busy tick and then a ready tick, both without
new data, send nothing. -/
theorem C6_retry_as_stated_fails :
    ¬ (∀ (K : UsbConsts) (s : State) (ts : List Tick) (t : Tick), s.changed = true →
        (∀ x ∈ ts, x.ready = false) → t.ready = true →
        (run K s ts).2 = [] ∧ (run K s ts).1.changed = true ∧
        (run K s (ts ++ [t])).2 =
          [usbSetInterrupt (run K s (ts ++ [t])).1.reportBuffer 5]) := by
  intro h
  have h0 := (h vusb pendingState [tkIdle frame0 false] (tkIdle frame0 true)
    (by decide) (by simp [tkIdle]) rfl).2.2
  revert h0
  decide

/-- C6 (amended): starting with changed set, over any run of ticks on which
the endpoint is not ready, after each tick changed is still set and nothing
has been sent; on every tick the report buffer is what the Report Builder
left (the gate writes nothing to it); and when a following tick finds the
endpoint ready and has new data signalled, the whole run has made exactly one
send, carrying the first five bytes of the report built on that tick, and
changed is clear. -/
theorem C6_retry_amended (K : UsbConsts) (s : State) (ts : List Tick) (t : Tick)
    (hc : s.changed = true) (hr : ∀ x ∈ ts, x.ready = false) (ht : t.ready = true)
    (hd : ((run K s ts).1.ppmNewData || t.newData) = true) :
    (∀ n, (run K s (ts.take n)).2 = [] ∧ (run K s (ts.take n)).1.changed = true) ∧
    (∀ (s2 : State) (x : Tick), (tick K s2 x).1.reportBuffer =
      if (s2.ppmNewData || x.newData) = true
      then (reportBuilderPass x.ppm s2.reportBuffer s2.changed).1 else s2.reportBuffer) ∧
    (run K s (ts ++ [t])).2 =
      [usbSetInterrupt (reportBuilderPass t.ppm (run K s ts).1.reportBuffer true).1 5] ∧
    (run K s (ts ++ [t])).1.reportBuffer =
      (reportBuilderPass t.ppm (run K s ts).1.reportBuffer true).1 ∧
    (run K s (ts ++ [t])).1.changed = false := by
  obtain ⟨n1, n2⟩ := run_notReady K ts s hc hr
  refine ⟨?_, ?_, ?_⟩
  · intro n
    exact run_notReady K (ts.take n) s hc (fun x hx => hr x (List.mem_of_mem_take hx))
  · intro s2 x
    cases hx : (s2.ppmNewData || x.newData) with
    | false => simpa using (tick_noData K s2 x hx).2.1
    | true => simpa using (tick_data K s2 x hx).1
  · obtain ⟨b, c, a⟩ := tick_ready_data K (run K s ts).1 t n2 ht hd
    rw [run_append]
    simp only [run, List.append_nil, n1, List.nil_append]
    rw [b] at a
    exact ⟨a, b, c⟩

/-- C6 (amended), instance: from the pending state, two busy ticks (the
second with a newer frame), then a ready tick with new data. -/
theorem C6_retry_amended_witness :
    pendingState.changed = true ∧ (∀ x ∈ busyTicks, x.ready = false) ∧
    (tkData frame0 true).ready = true ∧
    ((run vusb pendingState busyTicks).1.ppmNewData || (tkData frame0 true).newData) = true ∧
    ((∀ n, (run vusb pendingState (busyTicks.take n)).2 = [] ∧
        (run vusb pendingState (busyTicks.take n)).1.changed = true) ∧
      (∀ (s2 : State) (x : Tick), (tick vusb s2 x).1.reportBuffer =
        if (s2.ppmNewData || x.newData) = true
        then (reportBuilderPass x.ppm s2.reportBuffer s2.changed).1 else s2.reportBuffer) ∧
      (run vusb pendingState (busyTicks ++ [tkData frame0 true])).2 =
        [usbSetInterrupt (reportBuilderPass (tkData frame0 true).ppm
          (run vusb pendingState busyTicks).1.reportBuffer true).1 5] ∧
      (run vusb pendingState (busyTicks ++ [tkData frame0 true])).1.reportBuffer =
        (reportBuilderPass (tkData frame0 true).ppm
          (run vusb pendingState busyTicks).1.reportBuffer true).1 ∧
      (run vusb pendingState (busyTicks ++ [tkData frame0 true])).1.changed = false) :=
  ⟨by decide, by simp [busyTicks, tkIdle, tkData], rfl, by decide,
    C6_retry_amended vusb pendingState busyTicks (tkData frame0 true) (by decide)
      (by simp [busyTicks, tkIdle, tkData]) rfl (by decide)⟩

/-- C7 (as stated, refuted): one pass on the frame [10,20,30,40,50,170,30,0]
from the all-zero buffer does not give report bytes 0..4 = [50,10,20,30,0x08]. -/
theorem C7_scenario_as_stated_fails :
    (reportBuilderPass frame0 zeroBuf false).1.take 5 ≠ [50, 10, 20, 30, 0x08] := by
  decide

/-- C7 (amended): one pass on the frame [10,20,30,40,50,170,30,0], from any
prior 8-byte buffer, gives report bytes 0..4 = [20,30,40,50,0x09]
(ch1..ch4, then Button4 from ch5 = 170 and Button1 from ch6 = 30 < 56). -/
theorem C7_scenario_amended (buf : List Nat) (c : Bool) (h : buf.length = 8) :
    (reportBuilderPass frame0 buf c).1.take 5 = [20, 30, 40, 50, 0x09] := by
  obtain ⟨a0, a1, a2, a3, a4, a5, a6, a7, rfl⟩ := buf_eq_of_length h
  rw [reportBuilderPass_buf]
  have e1 : ppmGet frame0 1 = 20 := by decide
  have e2 : ppmGet frame0 2 = 30 := by decide
  have e3 : ppmGet frame0 3 = 40 := by decide
  have e4 : ppmGet frame0 4 = 50 := by decide
  have e5 : b5 (ppmGet frame0 5) ||| b6 (ppmGet frame0 6) = 0x09 := by decide
  rw [e1, e2, e3, e4, e5]
  rfl

/-- C7 (amended), instance: the all-zero buffer the program starts with. -/
theorem C7_scenario_amended_witness :
    zeroBuf.length = 8 ∧ (reportBuilderPass frame0 zeroBuf false).1.take 5 = [20, 30, 40, 50, 0x09] :=
  ⟨rfl, C7_scenario_amended zeroBuf false rfl⟩

/-- C8: in every state reached from the initial state (all-zero report buffer)
by any sequence of loop ticks, with any frames, readiness, new-data flags and
setup packets, report byte 4 does not have Button3 and Button4 both set, does
not have Button1 and Button2 both set, and has a zero high nibble. -/
theorem C8_button_invariant (K : UsbConsts) (ts : List Tick) :
    ButtonByteOk (rd (run K init ts).1.reportBuffer 4) := by
  obtain ⟨_, x, y, e⟩ := run_BufInv K ts init init_BufInv
  rw [e]
  exact b5_b6_ok x y

/-- C9: for every frame and prior 8-byte buffer, after a Report Builder pass:
ch5 = 160 leaves bit3 clear, ch5 = 161 sets bit3, ch5 = 89 sets bit2, ch5 = 90
leaves bits 2 and 3 clear, and ch5 = ch6 = 0 gives byte 4 = 0x05. -/
theorem C9_threshold_boundaries (ppm : Nat → Nat) (buf : List Nat) (c : Bool)
    (h : buf.length = 8) :
    (ppmGet ppm 5 = 160 → rd (reportBuilderPass ppm buf c).1 4 &&& 0x08 = 0) ∧
    (ppmGet ppm 5 = 161 → rd (reportBuilderPass ppm buf c).1 4 &&& 0x08 = 0x08) ∧
    (ppmGet ppm 5 = 89 → rd (reportBuilderPass ppm buf c).1 4 &&& 0x04 = 0x04) ∧
    (ppmGet ppm 5 = 90 → rd (reportBuilderPass ppm buf c).1 4 &&& 0x0C = 0) ∧
    (ppmGet ppm 5 = 0 → ppmGet ppm 6 = 0 → rd (reportBuilderPass ppm buf c).1 4 = 0x05) := by
  obtain ⟨a0, a1, a2, a3, a4, a5, a6, a7, rfl⟩ := buf_eq_of_length h
  rw [reportBuilderPass_buf]
  simp only [rd, List.getD_cons_succ, List.getD_cons_zero]
  refine ⟨?_, ?_, ?_, ?_, ?_⟩
  · intro e
    rw [e]
    unfold b6
    split_ifs <;> decide
  · intro e
    rw [e]
    unfold b6
    split_ifs <;> decide
  · intro e
    rw [e]
    unfold b6
    split_ifs <;> decide
  · intro e
    rw [e]
    unfold b6
    split_ifs <;> decide
  · intro e5 e6
    rw [e5, e6]
    decide

/-- C9, instances: frames with ch5 = 160, 161, 89, 90 and with ch5 = ch6 = 0,
on the all-zero buffer. -/
theorem C9_threshold_boundaries_witness :
    zeroBuf.length = 8 ∧
    rd (reportBuilderPass (setCh frame0 5 160) zeroBuf false).1 4 &&& 0x08 = 0 ∧
    rd (reportBuilderPass (setCh frame0 5 161) zeroBuf false).1 4 &&& 0x08 = 0x08 ∧
    rd (reportBuilderPass (setCh frame0 5 89) zeroBuf false).1 4 &&& 0x04 = 0x04 ∧
    rd (reportBuilderPass (setCh frame0 5 90) zeroBuf false).1 4 &&& 0x0C = 0 ∧
    rd (reportBuilderPass (frameOf [0, 0, 0, 0, 0, 0, 0, 0]) zeroBuf false).1 4 = 0x05 :=
  ⟨rfl,
    (C9_threshold_boundaries (setCh frame0 5 160) zeroBuf false rfl).1 (by decide),
    (C9_threshold_boundaries (setCh frame0 5 161) zeroBuf false rfl).2.1 (by decide),
    (C9_threshold_boundaries (setCh frame0 5 89) zeroBuf false rfl).2.2.1 (by decide),
    (C9_threshold_boundaries (setCh frame0 5 90) zeroBuf false rfl).2.2.2.1 (by decide),
    (C9_threshold_boundaries (frameOf [0, 0, 0, 0, 0, 0, 0, 0]) zeroBuf false rfl).2.2.2.2
      (by decide) (by decide)⟩

/-- C10: usbFunctionSetup on any setup packet, with pairwise different
opcodes. On a class-type request: GET_REPORT returns 8 (sizeof reportBuffer)
with usbMsgPtr at the report buffer; GET_IDLE returns 1 with usbMsgPtr at
idleRate; SET_IDLE stores the high byte of wValue in idleRate and returns 0;
any other opcode returns 0 with the state unchanged. A request that is not of
class type returns 0 with the state unchanged. -/
theorem C10_usbFunctionSetup (K : UsbConsts) (s : State) (data : List Nat)
    (hK : K.Distinct) :
    ((rqOf data).bmRequestType &&& K.USBRQ_TYPE_MASK = K.USBRQ_TYPE_CLASS →
      ((rqOf data).bRequest = K.USBRQ_HID_GET_REPORT →
        usbFunctionSetup K s data = ({ s with usbMsgPtr := MsgPtr.reportBuffer }, 8)) ∧
      ((rqOf data).bRequest = K.USBRQ_HID_GET_IDLE →
        usbFunctionSetup K s data = ({ s with usbMsgPtr := MsgPtr.idleRate }, 1)) ∧
      ((rqOf data).bRequest = K.USBRQ_HID_SET_IDLE →
        usbFunctionSetup K s data = ({ s with idleRate := rd data 3 % 256 }, 0)) ∧
      ((rqOf data).bRequest ≠ K.USBRQ_HID_GET_REPORT →
        (rqOf data).bRequest ≠ K.USBRQ_HID_GET_IDLE →
        (rqOf data).bRequest ≠ K.USBRQ_HID_SET_IDLE →
        usbFunctionSetup K s data = (s, 0))) ∧
    ((rqOf data).bmRequestType &&& K.USBRQ_TYPE_MASK ≠ K.USBRQ_TYPE_CLASS →
      usbFunctionSetup K s data = (s, 0)) := by
  obtain ⟨d1, d2, d3⟩ := hK
  refine ⟨fun hcls => ⟨?_, ?_, ?_, ?_⟩, ?_⟩
  · intro e
    simp [usbFunctionSetup, hcls, e, sizeofReportBuffer]
  · intro e
    have n1 : ¬ K.USBRQ_HID_GET_IDLE = K.USBRQ_HID_GET_REPORT := fun x => d1 x.symm
    simp [usbFunctionSetup, hcls, e, n1]
  · intro e
    have n1 : ¬ K.USBRQ_HID_SET_IDLE = K.USBRQ_HID_GET_REPORT := fun x => d2 x.symm
    have n2 : ¬ K.USBRQ_HID_SET_IDLE = K.USBRQ_HID_GET_IDLE := fun x => d3 x.symm
    have hv : rd data 3 % 256 = (rqOf data).wValueHi := rfl
    rw [hv]
    simp [usbFunctionSetup, hcls, e, n1, n2]
  · intro e1 e2 e3
    simp [usbFunctionSetup, hcls, e1, e2, e3]
  · intro hn
    simp [usbFunctionSetup, hn]

/-- C10, instances with the V-USB constants, from the initial state: a
GET_REPORT, a GET_IDLE, a SET_IDLE with wValue = 0x7D00, a class request
SET_PROTOCOL, and a standard GET_DESCRIPTOR. -/
theorem C10_usbFunctionSetup_witness :
    vusb.Distinct ∧
    usbFunctionSetup vusb init [0xA1, 0x01, 0, 1, 0, 0, 8, 0] =
      ({ init with usbMsgPtr := MsgPtr.reportBuffer }, 8) ∧
    usbFunctionSetup vusb init [0xA1, 0x02, 0, 0, 0, 0, 1, 0] =
      ({ init with usbMsgPtr := MsgPtr.idleRate }, 1) ∧
    usbFunctionSetup vusb init [0x21, 0x0A, 0, 0x7D, 0, 0, 0, 0] =
      ({ init with idleRate := 0x7D }, 0) ∧
    usbFunctionSetup vusb init [0x21, 0x0B, 0, 0, 0, 0, 0, 0] = (init, 0) ∧
    usbFunctionSetup vusb init [0x80, 0x06, 0, 1, 0, 0, 18, 0] = (init, 0) :=
  ⟨⟨by decide, by decide, by decide⟩,
    ((C10_usbFunctionSetup vusb init [0xA1, 0x01, 0, 1, 0, 0, 8, 0]
      ⟨by decide, by decide, by decide⟩).1 (by decide)).1 (by decide),
    ((C10_usbFunctionSetup vusb init [0xA1, 0x02, 0, 0, 0, 0, 1, 0]
      ⟨by decide, by decide, by decide⟩).1 (by decide)).2.1 (by decide),
    ((C10_usbFunctionSetup vusb init [0x21, 0x0A, 0, 0x7D, 0, 0, 0, 0]
      ⟨by decide, by decide, by decide⟩).1 (by decide)).2.2.1 (by decide),
    ((C10_usbFunctionSetup vusb init [0x21, 0x0B, 0, 0, 0, 0, 0, 0]
      ⟨by decide, by decide, by decide⟩).1 (by decide)).2.2.2
        (by decide) (by decide) (by decide),
    (C10_usbFunctionSetup vusb init [0x80, 0x06, 0, 1, 0, 0, 18, 0]
      ⟨by decide, by decide, by decide⟩).2 (by decide)⟩

/-! ### The changed flag -/

/-- The flag component of one scan step. -/
theorem scanStep_snd (ppm : Nat → Nat) (st : List Nat × Bool) (i : Nat) :
    (scanStep ppm st i).2 =
      if i < 5 then (st.2 || decide (rd st.1 (rd remapChannelLut i) ≠ ppmGet ppm i))
      else st.2 := by
  simp only [scanStep]
  split_ifs <;> simp_all

/-- Closed form of the flag after one Report Builder pass. -/
theorem reportBuilderPass_flag (ppm : Nat → Nat) (a0 a1 a2 a3 a4 a5 a6 a7 : Nat) (c : Bool) :
    (reportBuilderPass ppm [a0, a1, a2, a3, a4, a5, a6, a7] c).2 =
      (c || decide (ppmGet ppm 0 ≠ a4) || decide (ppmGet ppm 1 ≠ a0) ||
        decide (ppmGet ppm 2 ≠ a1) || decide (ppmGet ppm 3 ≠ a2) ||
        decide (ppmGet ppm 4 ≠ a3) ||
        decide (b5 (ppmGet ppm 5) ||| b6 (ppmGet ppm 6) ≠ a4)) := by
  have hb := channelScan_fst ppm a0 a1 a2 a3 a4 a5 a6 a7 c
  have hf : (channelScan ppm ([a0, a1, a2, a3, a4, a5, a6, a7], c)).2 =
      (c || decide (ppmGet ppm 0 ≠ a4) || decide (ppmGet ppm 1 ≠ a0) ||
        decide (ppmGet ppm 2 ≠ a1) || decide (ppmGet ppm 3 ≠ a2) ||
        decide (ppmGet ppm 4 ≠ a3)) := by
    unfold channelScan
    rw [range_scan]
    simp only [List.foldl, scanStep_snd, scanStep_fst]
    simp [wr, rd, remapChannelLut, eq_comm]
  unfold reportBuilderPass
  simp only []
  split_ifs with h
  · rw [hb] at h
    have hm : ¬ b5 (ppmGet ppm 5) ||| b6 (ppmGet ppm 6) = a4 := by simpa [rd] using h
    simp [hm]
  · rw [hb] at h
    have hm : b5 (ppmGet ppm 5) ||| b6 (ppmGet ppm 6) = a4 := by simpa [rd] using h
    rw [hf]
    simp [hm]

/-! ### The channel scan with its accesses -/

theorem scanStepT_fst (ppm : Nat → Nat) (st : List Nat × Bool) (i : Nat) :
    (scanStepT ppm st i).1 = scanStep ppm st i := by
  simp only [scanStepT, scanStep]
  split_ifs <;> rfl

theorem scanStepT_ok (ppm : Nat → Nat) (st : List Nat × Bool) (i : Nat) (hi : i < 7) :
    ∀ e ∈ (scanStepT ppm st i).2, EvOk e ∧ LutOk e := by
  interval_cases i <;> simp only [scanStepT] <;> split_ifs <;>
    first
    | omega
    | simp [EvOk, LutOk, rd, remapChannelLut]

theorem scanStepT_reads (ppm : Nat → Nat) (st : List Nat × Bool) (i : Nat) :
    iterations (scanStepT ppm st i).2 = [] ∧ channelsRead (scanStepT ppm st i).2 = [i] ∧
    Ev.clearNewData ∉ (scanStepT ppm st i).2 := by
  simp only [scanStepT]
  split_ifs <;> simp [iterations, channelsRead]

/-- The loop from counter value `i` on terminates within `7 - i + 1` tests; it
runs the body for the counters `i, .., 6` and makes only accesses in bounds. -/
theorem scanLoop_spec (ppm : Nat → Nat) (fuel : Nat) :
    ∀ (i : Nat) (acc : (List Nat × Bool) × List Ev), i ≤ 7 → 7 - i < fuel →
      ∃ tr, scanLoop ppm fuel i acc =
          some ((List.range' i (7 - i)).foldl (scanStep ppm) acc.1, acc.2 ++ tr) ∧
        iterations tr = List.range' i (7 - i) ∧
        channelsRead tr = List.range' i (7 - i) ∧
        (∀ e ∈ tr, EvOk e ∧ LutOk e) ∧ Ev.clearNewData ∉ tr := by
  induction fuel with
  | zero => intro i acc _ h; omega
  | succ fuel ih =>
    intro i acc hi hf
    by_cases h7 : i < 7
    · have hm : (i + 1) % 256 = i + 1 := Nat.mod_eq_of_lt (by omega)
      obtain ⟨tr, e, h1, h2, h3, h4⟩ := ih (i + 1)
        ((scanStepT ppm acc.1 i).1, acc.2 ++ Ev.iter i :: (scanStepT ppm acc.1 i).2)
        (by omega) (by omega)
      obtain ⟨r1, r2, r3⟩ := scanStepT_reads ppm acc.1 i
      have hr : List.range' i (7 - i) = i :: List.range' (i + 1) (7 - (i + 1)) := by
        have : 7 - i = (7 - (i + 1)) + 1 := by omega
        rw [this, List.range'_succ]
      refine ⟨Ev.iter i :: (scanStepT ppm acc.1 i).2 ++ tr, ?_, ?_, ?_, ?_, ?_⟩
      · simp only [scanLoop, sizeofReportBuffer]
        rw [if_pos (by omega), hm, e, hr, scanStepT_fst]
        simp [List.foldl]
      · rw [hr, ← h1]
        simp only [iterations, List.cons_append, List.filterMap_cons, List.filterMap_append] at r1 ⊢
        rw [r1]
        rfl
      · rw [hr, ← h2]
        simp only [channelsRead, List.cons_append, List.filterMap_cons, List.filterMap_append] at r2 ⊢
        rw [r2]
        rfl
      · intro e he
        simp only [List.cons_append, List.mem_cons, List.mem_append] at he
        rcases he with rfl | he | he
        · exact ⟨trivial, trivial⟩
        · exact scanStepT_ok ppm acc.1 i h7 e he
        · exact h3 e he
      · intro hc
        simp only [List.cons_append, List.mem_cons, List.mem_append] at hc
        rcases hc with hc | hc | hc
        · cases hc
        · exact r3 hc
        · exact h4 hc
    · have e7 : i = 7 := by omega
      subst e7
      refine ⟨[], ?_, rfl, rfl, ?_, ?_⟩
      · simp [scanLoop, sizeofReportBuffer]
      · intro e he; cases he
      · intro hc; cases hc

/-- The pass with its accesses: it returns what `reportBuilderPass` returns
whenever the fuel allows 8 tests of the loop condition. -/
theorem reportBuilderPassT_spec (ppm : Nat → Nat) (buf : List Nat) (c : Bool) (fuel : Nat)
    (hf : 8 ≤ fuel) :
    ∃ tr, reportBuilderPassT ppm buf c fuel = some (reportBuilderPass ppm buf c, tr) ∧
      iterations tr = [0, 1, 2, 3, 4, 5, 6] ∧ channelsRead tr = [0, 1, 2, 3, 4, 5, 6] ∧
      (∀ e ∈ tr, EvOk e ∧ LutOk e) ∧ Ev.clearNewData ∉ tr := by
  obtain ⟨tr, e, h1, h2, h3, h4⟩ :=
    scanLoop_spec ppm fuel 0 ((buf, c), [Ev.bufRead 4]) (by omega) (by omega)
  have hr : List.range' 0 (7 - 0) = List.range (sizeofReportBuffer - 1) := by decide
  rw [hr] at e
  refine ⟨[Ev.bufRead 4] ++ tr ++ [Ev.bufRead 4], ?_, ?_, ?_, ?_, ?_⟩
  · simp only [reportBuilderPassT, e]
    rfl
  · simp only [iterations, List.filterMap_append] at h1 ⊢
    rw [h1]
    rfl
  · simp only [channelsRead, List.filterMap_append] at h2 ⊢
    rw [h2]
    rfl
  · intro x hx
    simp only [List.mem_append, List.mem_singleton] at hx
    have h4ok : EvOk (Ev.bufRead 4) ∧ LutOk (Ev.bufRead 4) :=
      ⟨(by decide : (4 : Nat) < 8), trivial⟩
    rcases hx with (rfl | hx) | rfl
    · exact h4ok
    · exact h3 x hx
    · exact h4ok
  · intro hc
    simp only [List.mem_append, List.mem_singleton] at hc
    rcases hc with (hc | hc) | hc
    · cases hc
    · exact h4 hc
    · cases hc

/-! ### Boot loop and tail of the report buffer -/

/-- The disconnect loop entered with a counter `i` in 1..255 that has just been
tested makes `i - 1` further delays. -/
theorem disconnectLoop_from (fuel : Nat) :
    ∀ (i n : Nat), 1 ≤ i → i < 256 → i ≤ fuel →
      disconnectLoop fuel i n = some (n + (i - 1)) := by
  induction fuel with
  | zero => intro i n h1 _ hf; omega
  | succ fuel ih =>
    intro i n h1 h256 hf
    have hm : (i + 255) % 256 = i - 1 := by omega
    simp only [disconnectLoop, hm]
    by_cases h : i - 1 = 0
    · simp [h]
    · rw [if_pos h, ih (i - 1) (n + 1) (by omega) (by omega) (by omega)]
      congr 1
      omega

theorem tick_TailInv (K : UsbConsts) (s : State) (t : Tick) (h : TailInv s) :
    TailInv (tick K s t).1 := by
  cases hd : (s.ppmNewData || t.newData) with
  | false =>
    obtain ⟨_, b, _, _⟩ := tick_noData K s t hd
    unfold TailInv
    rw [b]
    exact h
  | true =>
    obtain ⟨b, _, _, _⟩ := tick_data K s t hd
    obtain ⟨a0, a1, a2, a3, a4, a5, a6, a7, e⟩ := buf_eq_of_length h.1
    have ht := h.2
    unfold TailInv
    rw [e] at ht
    rw [b, e, reportBuilderPass_buf]
    exact ⟨rfl, ht⟩

theorem run_TailInv (K : UsbConsts) (ts : List Tick) (s : State) (h : TailInv s) :
    TailInv (run K s ts).1 := by
  induction ts generalizing s with
  | nil => exact h
  | cons t ts ih => exact ih _ (tick_TailInv K s t h)

theorem init_TailInv : TailInv init := ⟨rfl, rfl⟩

/-- C11: the descriptor has 62 bytes and declares four Input fields: X and Y
(8 bits each, logical 0..255, variable), Z and Rx (the same), four 1-bit
buttons with usages 1..4 of the button page, and one 4-bit constant field.
Their sizes times counts sum to 40 bits, which is 8 times the length 5 the
transport gate passes to usbSetInterrupt. -/
theorem C11_descriptor_report_size (buf : List Nat) :
    usbHidReportDescriptor.length = 62 ∧
    declaredFields = some
      [{ flags := 0x82, usagePage := 0x01, logicalMin := 0, logicalMax := 255, reportSize := 8,
         reportCount := 2, usages := [0x30, 0x31], usageMin := none, usageMax := none },
       { flags := 0x82, usagePage := 0x01, logicalMin := 0, logicalMax := 255, reportSize := 8,
         reportCount := 2, usages := [0x32, 0x33], usageMin := none, usageMax := none },
       { flags := 0x02, usagePage := 0x09, logicalMin := 0, logicalMax := 1, reportSize := 1,
         reportCount := 4, usages := [], usageMin := some 1, usageMax := some 4 },
       { flags := 0x03, usagePage := 0x09, logicalMin := 0, logicalMax := 1, reportSize := 4,
         reportCount := 1, usages := [], usageMin := none, usageMax := none }] ∧
    declaredFields.map reportBits = some 40 ∧
    (transportGate buf true true).2.map (fun c => 8 * c.len) = [40] := by
  refine ⟨by decide, by decide, by decide, rfl⟩

/-- C12: for every frame whose ch6 lies in the middle zone 56..200 and every
prior 8-byte buffer, once the report of the frame is built and sent (changed
clear), a pass on the same frame with ch6 = 40 gives byte 4 = previous byte 4
OR 0x01 and sets changed. -/
theorem C12_ch6_drop (ppm : Nat → Nat) (buf : List Nat) (c : Bool)
    (h : buf.length = 8) (hlo : 56 ≤ ppmGet ppm 6) (hhi : ppmGet ppm 6 ≤ 200) :
    rd (reportBuilderPass (setCh ppm 6 40) (reportBuilderPass ppm buf c).1 false).1 4 =
      rd (reportBuilderPass ppm buf c).1 4 ||| 0x01 ∧
    (reportBuilderPass (setCh ppm 6 40) (reportBuilderPass ppm buf c).1 false).2 = true := by
  obtain ⟨a0, a1, a2, a3, a4, a5, a6, a7, rfl⟩ := buf_eq_of_length h
  have e6 : ppmGet (setCh ppm 6 40) 6 = 40 := by simp [ppmGet, setCh]
  have e5 : ppmGet (setCh ppm 6 40) 5 = ppmGet ppm 5 := by simp [ppmGet, setCh]
  have m6 : b6 (ppmGet ppm 6) = 0 := by
    unfold b6
    split_ifs <;> first | rfl | omega
  have n6 : b6 40 = 1 := by decide
  have hne : ¬ b5 (ppmGet ppm 5) ||| 1 = b5 (ppmGet ppm 5) ||| 0 := by
    unfold b5
    split_ifs <;> decide
  rw [reportBuilderPass_buf ppm, reportBuilderPass_buf, reportBuilderPass_flag]
  rw [e5, e6, m6, n6]
  constructor
  · simp [rd]
  · simp only [Nat.or_zero] at hne ⊢
    simp [hne]

/-- C12, instance: the scenario frame with ch6 = 100, from the zero buffer;
byte 4 goes from 0x08 to 0x09. -/
theorem C12_ch6_drop_witness :
    zeroBuf.length = 8 ∧ 56 ≤ ppmGet (setCh frame0 6 100) 6 ∧
    ppmGet (setCh frame0 6 100) 6 ≤ 200 ∧
    (rd (reportBuilderPass (setCh (setCh frame0 6 100) 6 40)
        (reportBuilderPass (setCh frame0 6 100) zeroBuf false).1 false).1 4 =
      rd (reportBuilderPass (setCh frame0 6 100) zeroBuf false).1 4 ||| 0x01 ∧
    (reportBuilderPass (setCh (setCh frame0 6 100) 6 40)
        (reportBuilderPass (setCh frame0 6 100) zeroBuf false).1 false).2 = true) :=
  ⟨rfl, by decide, by decide,
    C12_ch6_drop (setCh frame0 6 100) zeroBuf false rfl (by decide) (by decide)⟩

/-- C13: one loop iteration, the fuel allowing 8 tests of the scan condition.
With ppmNewData clear it runs no pass (no access at all), sends nothing and
leaves the report buffer and changed as they are. With ppmNewData set, the
first thing it does is clear the flag, then it reads the channels 0..6 once
each in one pass, ends with ppmNewData clear and the buffer of that one pass;
a following iteration with no new signal runs no pass again. -/
theorem C13_one_pass_per_signal (K : UsbConsts) (s : State) (ppm : Nat → Nat) (ready : Bool)
    (setup : Option (List Nat)) (fuel : Nat) (hf : 8 ≤ fuel) :
    (s.ppmNewData = false →
      newDataBranchT (usbPoll K s setup) ppm ready fuel = some ((usbPoll K s setup, []), []) ∧
      (loopBody K s ppm ready setup).1.reportBuffer = s.reportBuffer ∧
      (loopBody K s ppm ready setup).1.changed = s.changed ∧
      (loopBody K s ppm ready setup).2 = []) ∧
    (s.ppmNewData = true →
      (∃ tr, newDataBranchT (usbPoll K s setup) ppm ready fuel =
          some (loopBody K s ppm ready setup, Ev.clearNewData :: tr) ∧
        Ev.clearNewData ∉ tr ∧ iterations tr = [0, 1, 2, 3, 4, 5, 6] ∧
        channelsRead tr = [0, 1, 2, 3, 4, 5, 6]) ∧
      (loopBody K s ppm ready setup).1.ppmNewData = false ∧
      (loopBody K s ppm ready setup).1.reportBuffer =
        (reportBuilderPass ppm s.reportBuffer s.changed).1 ∧
      ∀ (ppm2 : Nat → Nat) (ready2 : Bool) (setup2 : Option (List Nat)),
        (loopBody K (loopBody K s ppm ready setup).1 ppm2 ready2 setup2).1.reportBuffer =
          (loopBody K s ppm ready setup).1.reportBuffer ∧
        (loopBody K (loopBody K s ppm ready setup).1 ppm2 ready2 setup2).2 = []) := by
  obtain ⟨p1, p2, p3⟩ := usbPoll_frame K s setup
  have noPass : ∀ (u : State) (q : Nat → Nat) (r : Bool) (o : Option (List Nat)),
      u.ppmNewData = false →
      (loopBody K u q r o).1.reportBuffer = u.reportBuffer ∧
      (loopBody K u q r o).1.changed = u.changed ∧ (loopBody K u q r o).2 = [] := by
    intro u q r o hu
    obtain ⟨q1, q2, q3⟩ := usbPoll_frame K u o
    rw [hu] at q3
    simp only [loopBody, newDataBranch, q3]
    exact ⟨q1, q2, rfl⟩
  constructor
  · intro h
    rw [h] at p3
    refine ⟨?_, noPass s ppm ready setup h⟩
    simp [newDataBranchT, p3]
  · intro h
    rw [h] at p3
    have hdone : (loopBody K s ppm ready setup).1.ppmNewData = false := by
      simp [loopBody, newDataBranch, p3]
    refine ⟨?_, hdone, ?_, ?_⟩
    · obtain ⟨tr, e, h1, h2, _, h4⟩ :=
        reportBuilderPassT_spec ppm (usbPoll K s setup).reportBuffer
          (usbPoll K s setup).changed fuel hf
      refine ⟨tr, ?_, h4, h1, h2⟩
      simp [newDataBranchT, loopBody, newDataBranch, p3, e]
    · simp [loopBody, newDataBranch, p3, p1, p2]
    · intro ppm2 ready2 setup2
      obtain ⟨n1, _, n3⟩ := noPass (loopBody K s ppm ready setup).1 ppm2 ready2 setup2 hdone
      exact ⟨n1, n3⟩

/-- C13, instances: the pending state (ppmNewData clear) and the initial state
(ppmNewData set), with the scenario frame. -/
theorem C13_one_pass_per_signal_witness :
    8 ≤ 8 ∧
    (loopBody vusb pendingState frame0 true none).1.reportBuffer = pendingState.reportBuffer ∧
    (loopBody vusb pendingState frame0 true none).2 = [] ∧
    (∃ tr, newDataBranchT (usbPoll vusb init none) frame0 true 8 =
        some (loopBody vusb init frame0 true none, Ev.clearNewData :: tr) ∧
      Ev.clearNewData ∉ tr ∧ iterations tr = [0, 1, 2, 3, 4, 5, 6] ∧
      channelsRead tr = [0, 1, 2, 3, 4, 5, 6]) ∧
    (loopBody vusb init frame0 true none).1.ppmNewData = false :=
  ⟨Nat.le_refl 8,
    ((C13_one_pass_per_signal vusb pendingState frame0 true none 8 (Nat.le_refl 8)).1
      (by decide)).2.1,
    ((C13_one_pass_per_signal vusb pendingState frame0 true none 8 (Nat.le_refl 8)).1
      (by decide)).2.2.2,
    ((C13_one_pass_per_signal vusb init frame0 true none 8 (Nat.le_refl 8)).2 rfl).1,
    ((C13_one_pass_per_signal vusb init frame0 true none 8 (Nat.le_refl 8)).2 rfl).2.1⟩

/-- C14: the boot loop terminates: with room for at least 256 tests of its
condition it returns, and the number of one-millisecond delays it has made
is exactly 255, which is at least 250. -/
theorem C14_disconnect_loop (k : Nat) :
    disconnectLoop (256 + k) 0 0 = some 255 ∧ (250 : Nat) ≤ 255 := by
  refine ⟨?_, by decide⟩
  have e : 256 + k = (255 + k) + 1 := by omega
  rw [e]
  simp only [disconnectLoop]
  rw [if_pos (by decide)]
  exact disconnectLoop_from (255 + k) 255 1 (by decide) (by decide) (by omega)

/-- C15: with pairwise different opcodes, from every state, a class-type
SET_IDLE whose wValue high byte is d followed by a class-type GET_IDLE returns
length 1 and the message is the single byte d. -/
theorem C15_idle_round_trip (K : UsbConsts) (s : State) (d : Nat) (pkt1 pkt2 : List Nat)
    (hK : K.Distinct) (h1 : IsClassRq K pkt1 K.USBRQ_HID_SET_IDLE)
    (hd : (rqOf pkt1).wValueHi = d) (h2 : IsClassRq K pkt2 K.USBRQ_HID_GET_IDLE) :
    (usbFunctionSetup K (usbFunctionSetup K s pkt1).1 pkt2).2 = 1 ∧
    usbMsg (usbFunctionSetup K (usbFunctionSetup K s pkt1).1 pkt2).1
      (usbFunctionSetup K (usbFunctionSetup K s pkt1).1 pkt2).2 = [d] := by
  obtain ⟨d1, d2, d3⟩ := hK
  obtain ⟨c1, o1⟩ := h1
  obtain ⟨c2, o2⟩ := h2
  have n1 : ¬ K.USBRQ_HID_SET_IDLE = K.USBRQ_HID_GET_REPORT := fun x => d2 x.symm
  have n2 : ¬ K.USBRQ_HID_SET_IDLE = K.USBRQ_HID_GET_IDLE := fun x => d3 x.symm
  have n3 : ¬ K.USBRQ_HID_GET_IDLE = K.USBRQ_HID_GET_REPORT := fun x => d1 x.symm
  have e1 : usbFunctionSetup K s pkt1 = ({ s with idleRate := d }, 0) := by
    simp [usbFunctionSetup, c1, o1, n1, n2, hd]
  rw [e1]
  have e2 : usbFunctionSetup K { s with idleRate := d } pkt2 =
      ({ s with idleRate := d, usbMsgPtr := MsgPtr.idleRate }, 1) := by
    simp [usbFunctionSetup, c2, o2, n3]
  rw [e2]
  exact ⟨rfl, rfl⟩

/-- C15, instance with the V-USB constants: SET_IDLE with wValue = 0x7D00 from
the initial state, then GET_IDLE. -/
theorem C15_idle_round_trip_witness :
    vusb.Distinct ∧ IsClassRq vusb [0x21, 0x0A, 0, 0x7D, 0, 0, 0, 0] vusb.USBRQ_HID_SET_IDLE ∧
    (rqOf [0x21, 0x0A, 0, 0x7D, 0, 0, 0, 0]).wValueHi = 0x7D ∧
    IsClassRq vusb [0xA1, 0x02, 0, 0, 0, 0, 1, 0] vusb.USBRQ_HID_GET_IDLE ∧
    ((usbFunctionSetup vusb (usbFunctionSetup vusb init [0x21, 0x0A, 0, 0x7D, 0, 0, 0, 0]).1
        [0xA1, 0x02, 0, 0, 0, 0, 1, 0]).2 = 1 ∧
      usbMsg (usbFunctionSetup vusb
          (usbFunctionSetup vusb init [0x21, 0x0A, 0, 0x7D, 0, 0, 0, 0]).1
          [0xA1, 0x02, 0, 0, 0, 0, 1, 0]).1
        (usbFunctionSetup vusb (usbFunctionSetup vusb init [0x21, 0x0A, 0, 0x7D, 0, 0, 0, 0]).1
          [0xA1, 0x02, 0, 0, 0, 0, 1, 0]).2 = [0x7D]) :=
  ⟨⟨by decide, by decide, by decide⟩, ⟨by decide, by decide⟩, by decide,
    ⟨by decide, by decide⟩,
    C15_idle_round_trip vusb init 0x7D [0x21, 0x0A, 0, 0x7D, 0, 0, 0, 0]
      [0xA1, 0x02, 0, 0, 0, 0, 1, 0] ⟨by decide, by decide, by decide⟩
      ⟨by decide, by decide⟩ (by decide) ⟨by decide, by decide⟩⟩

/-- C16: for every frame and every prior 8-byte buffer, after one pass report
bytes 0..3 are [ch1, ch2, ch3, ch4]; channel 0 is written to byte 4 by the
step i = 0 and byte 4 ends as the button mask; hence two frames that agree on
channels 1..6 (differing at most in ch0 and ch7) give the same report bytes
0..4, whatever the prior buffers. -/
theorem C16_code_remap (ppm : Nat → Nat) (buf : List Nat) (c : Bool) (h : buf.length = 8) :
    (reportBuilderPass ppm buf c).1.take 4 =
      [ppmGet ppm 1, ppmGet ppm 2, ppmGet ppm 3, ppmGet ppm 4] ∧
    rd (scanStep ppm (buf, c) 0).1 4 = ppmGet ppm 0 ∧
    rd (reportBuilderPass ppm buf c).1 4 = b5 (ppmGet ppm 5) ||| b6 (ppmGet ppm 6) ∧
    ∀ (ppm2 : Nat → Nat) (buf2 : List Nat) (c2 : Bool), buf2.length = 8 →
      (∀ i, 1 ≤ i → i ≤ 6 → ppmGet ppm2 i = ppmGet ppm i) →
      (reportBuilderPass ppm2 buf2 c2).1.take 5 = (reportBuilderPass ppm buf c).1.take 5 := by
  obtain ⟨a0, a1, a2, a3, a4, a5, a6, a7, rfl⟩ := buf_eq_of_length h
  refine ⟨?_, ?_, ?_, ?_⟩
  · rw [reportBuilderPass_buf]
    rfl
  · rw [scanStep_fst]
    simp [wr, rd, remapChannelLut]
  · rw [reportBuilderPass_buf]
    rfl
  · intro ppm2 buf2 c2 h2 hi
    obtain ⟨b0, b1, b2, b3, b4, b5, b6, b7, rfl⟩ := buf_eq_of_length h2
    rw [reportBuilderPass_buf, reportBuilderPass_buf]
    rw [hi 1 (by decide) (by decide), hi 2 (by decide) (by decide),
      hi 3 (by decide) (by decide), hi 4 (by decide) (by decide),
      hi 5 (by decide) (by decide), hi 6 (by decide) (by decide)]
    rfl

/-- C16, instance: the scenario frame on the zero buffer, against the frame
[99,20,30,40,50,170,30,77] on the buffer [1,2,3,4,5,6,7,8]. -/
theorem C16_code_remap_witness :
    zeroBuf.length = 8 ∧
    (reportBuilderPass frame0 zeroBuf false).1.take 4 = [20, 30, 40, 50] ∧
    rd (scanStep frame0 (zeroBuf, false) 0).1 4 = 10 ∧
    rd (reportBuilderPass frame0 zeroBuf false).1 4 = 9 ∧
    (reportBuilderPass (frameOf [99, 20, 30, 40, 50, 170, 30, 77]) [1, 2, 3, 4, 5, 6, 7, 8]
        true).1.take 5 = (reportBuilderPass frame0 zeroBuf false).1.take 5 :=
  ⟨rfl, (C16_code_remap frame0 zeroBuf false rfl).1,
    (C16_code_remap frame0 zeroBuf false rfl).2.1,
    (C16_code_remap frame0 zeroBuf false rfl).2.2.1,
    (C16_code_remap frame0 zeroBuf false rfl).2.2.2
      (frameOf [99, 20, 30, 40, 50, 170, 30, 77]) [1, 2, 3, 4, 5, 6, 7, 8] true rfl
      (by
        intro i h1 h6
        interval_cases i <;> rfl)⟩

/-- C17: for every frame, prior 8-byte buffer and prior flag, changed is set
after a pass exactly when it was set before, or ch0 differs from the old
byte 4, or ch(k+1) differs from the old byte k for some k in 0..3, or the new
button mask differs from the old byte 4. So a pass never clears a set flag,
and it sets the flag whenever ch0 differs from the old button byte; on the
buffer [20,30,40,50,9,0,0,0] the scenario frame sets the flag and leaves the
buffer identical. -/
theorem C17_changed_flag (ppm : Nat → Nat) (buf : List Nat) (c : Bool) (h : buf.length = 8) :
    ((reportBuilderPass ppm buf c).2 = true ↔
      (c = true ∨ ppmGet ppm 0 ≠ rd buf 4 ∨
        (∃ k, k < 4 ∧ ppmGet ppm (k + 1) ≠ rd buf k) ∨
        b5 (ppmGet ppm 5) ||| b6 (ppmGet ppm 6) ≠ rd buf 4)) ∧
    (c = true → (reportBuilderPass ppm buf c).2 = true) ∧
    (ppmGet ppm 0 ≠ rd buf 4 → (reportBuilderPass ppm buf c).2 = true) ∧
    reportBuilderPass frame0 [20, 30, 40, 50, 9, 0, 0, 0] false =
      ([20, 30, 40, 50, 9, 0, 0, 0], true) := by
  obtain ⟨a0, a1, a2, a3, a4, a5, a6, a7, rfl⟩ := buf_eq_of_length h
  have hex : (∃ k, k < 4 ∧ ppmGet ppm (k + 1) ≠ rd [a0, a1, a2, a3, a4, a5, a6, a7] k) ↔
      (ppmGet ppm 1 ≠ a0 ∨ ppmGet ppm 2 ≠ a1 ∨ ppmGet ppm 3 ≠ a2 ∨ ppmGet ppm 4 ≠ a3) := by
    constructor
    · rintro ⟨k, hk, hp⟩
      interval_cases k
      · exact Or.inl hp
      · exact Or.inr (Or.inl hp)
      · exact Or.inr (Or.inr (Or.inl hp))
      · exact Or.inr (Or.inr (Or.inr hp))
    · rintro (hp | hp | hp | hp)
      · exact ⟨0, by decide, hp⟩
      · exact ⟨1, by decide, hp⟩
      · exact ⟨2, by decide, hp⟩
      · exact ⟨3, by decide, hp⟩
  have main : (reportBuilderPass ppm [a0, a1, a2, a3, a4, a5, a6, a7] c).2 = true ↔
      (c = true ∨ ppmGet ppm 0 ≠ rd [a0, a1, a2, a3, a4, a5, a6, a7] 4 ∨
        (∃ k, k < 4 ∧ ppmGet ppm (k + 1) ≠ rd [a0, a1, a2, a3, a4, a5, a6, a7] k) ∨
        b5 (ppmGet ppm 5) ||| b6 (ppmGet ppm 6) ≠ rd [a0, a1, a2, a3, a4, a5, a6, a7] 4) := by
    rw [hex, reportBuilderPass_flag]
    simp only [rd, List.getD_cons_succ, List.getD_cons_zero, Bool.or_eq_true,
      decide_eq_true_eq]
    tauto
  refine ⟨main, fun hc => main.2 (Or.inl hc), fun h0 => main.2 (Or.inr (Or.inl h0)), ?_⟩
  decide

/-- C17, instance: the scenario frame from the zero buffer with the flag set,
and with ch0 = 10 against the old byte 4 = 0. -/
theorem C17_changed_flag_witness :
    zeroBuf.length = 8 ∧ (reportBuilderPass frame0 zeroBuf true).2 = true ∧
    (reportBuilderPass frame0 zeroBuf false).2 = true :=
  ⟨rfl, (C17_changed_flag frame0 zeroBuf true rfl).2.1 rfl,
    (C17_changed_flag frame0 zeroBuf false rfl).2.2.1 (by decide)⟩

/-- C18: in every state reached from the initial state by any sequence of
loop ticks (any frames, readiness, new-data flags and setup packets) bytes 5,
6 and 7 of the report buffer are zero; a setup request leaves the buffer as
it is, and the reply to a class-type GET_REPORT in such a state has 8 bytes,
the last three zero. -/
theorem C18_tail_zero (K : UsbConsts) (ts : List Tick) (data : List Nat)
    (h : IsClassRq K data K.USBRQ_HID_GET_REPORT) :
    rd (run K init ts).1.reportBuffer 5 = 0 ∧ rd (run K init ts).1.reportBuffer 6 = 0 ∧
    rd (run K init ts).1.reportBuffer 7 = 0 ∧
    (∀ pkt, (usbFunctionSetup K (run K init ts).1 pkt).1.reportBuffer =
      (run K init ts).1.reportBuffer) ∧
    (usbMsg (usbFunctionSetup K (run K init ts).1 data).1
      (usbFunctionSetup K (run K init ts).1 data).2).length = 8 ∧
    (usbMsg (usbFunctionSetup K (run K init ts).1 data).1
      (usbFunctionSetup K (run K init ts).1 data).2).drop 5 = [0, 0, 0] := by
  obtain ⟨hl, ht⟩ := run_TailInv K ts init init_TailInv
  obtain ⟨a0, a1, a2, a3, a4, a5, a6, a7, e⟩ := buf_eq_of_length hl
  obtain ⟨hc, ho⟩ := h
  have eg : usbFunctionSetup K (run K init ts).1 data =
      ({ (run K init ts).1 with usbMsgPtr := MsgPtr.reportBuffer }, 8) := by
    simp [usbFunctionSetup, hc, ho, sizeofReportBuffer]
  rw [eg]
  simp only [usbMsg]
  rw [e] at ht ⊢
  simp only [List.drop_succ_cons, List.drop_zero, List.cons.injEq, and_true] at ht
  obtain ⟨h5, h6, h7⟩ := ht
  subst h5 h6 h7
  refine ⟨rfl, rfl, rfl, ?_, rfl, rfl⟩
  intro pkt
  rw [← e]
  exact (usbFunctionSetup_frame K _ pkt).1

/-- C18, instance with the V-USB constants: two ticks (the second handling a
SET_IDLE in usbPoll), then a GET_REPORT. -/
theorem C18_tail_zero_witness :
    IsClassRq vusb [0xA1, 0x01, 0, 1, 0, 0, 8, 0] vusb.USBRQ_HID_GET_REPORT ∧
    (usbMsg (usbFunctionSetup vusb (run vusb init tailTicks).1 [0xA1, 0x01, 0, 1, 0, 0, 8, 0]).1
      (usbFunctionSetup vusb (run vusb init tailTicks).1
        [0xA1, 0x01, 0, 1, 0, 0, 8, 0]).2).drop 5 = [0, 0, 0] :=
  ⟨⟨by decide, by decide⟩,
    (C18_tail_zero vusb tailTicks [0xA1, 0x01, 0, 1, 0, 0, 8, 0]
      ⟨by decide, by decide⟩).2.2.2.2.2⟩

/-- C19: for every frame, buffer and flag, with room for at least 8 tests of
the loop condition the pass terminates with the result of reportBuilderPass;
the loop body runs for exactly i = 0,..,6; every ppmGet index is below 8,
remapChannelLut is read only at an index below 5 and every value read from it
is at most 4, and every reportBuffer read or write is at an index below 8. -/
theorem C19_index_safety (ppm : Nat → Nat) (buf : List Nat) (c : Bool) (fuel : Nat)
    (hf : 8 ≤ fuel) :
    ∃ tr, reportBuilderPassT ppm buf c fuel = some (reportBuilderPass ppm buf c, tr) ∧
      iterations tr = [0, 1, 2, 3, 4, 5, 6] ∧ (iterations tr).length = 7 ∧
      (∀ e ∈ tr, EvOk e) ∧
      (∀ i v, Ev.lutRead i v ∈ tr → i < 5 ∧ v = rd remapChannelLut i ∧ v ≤ 4) := by
  obtain ⟨tr, e, h1, _, h3, _⟩ := reportBuilderPassT_spec ppm buf c fuel hf
  refine ⟨tr, e, h1, by rw [h1]; rfl, fun x hx => (h3 x hx).1, ?_⟩
  intro i v hm
  obtain ⟨⟨hi, hv⟩, hl⟩ := h3 _ hm
  exact ⟨hi, hl, hv⟩

/-- C19, instance: the scenario frame on the zero buffer with fuel 8. -/
theorem C19_index_safety_witness :
    8 ≤ 8 ∧
    ∃ tr, reportBuilderPassT frame0 zeroBuf false 8 =
        some (reportBuilderPass frame0 zeroBuf false, tr) ∧
      iterations tr = [0, 1, 2, 3, 4, 5, 6] ∧ (iterations tr).length = 7 ∧
      (∀ e ∈ tr, EvOk e) ∧
      (∀ i v, Ev.lutRead i v ∈ tr → i < 5 ∧ v = rd remapChannelLut i ∧ v ≤ 4) :=
  ⟨Nat.le_refl 8, C19_index_safety frame0 zeroBuf false 8 (Nat.le_refl 8)⟩

end PPM2USB
